import Mathlib

/-!
Verification of the `taskmanager` repository (files
`taskmanager/models/task.py` and `taskmanager/services/task_service.py`).

The Python code is shallowly embedded:
* timestamps are natural numbers (seconds of UTC time); the current clock
  value `now` is passed explicitly to every operation that reads the clock;
* UUIDs are natural numbers (opaque identifiers compared for equality);
* floats (`estimated_hours`) are rationals — every comparison the code
  performs (`> 40.0`, `ge=0.0`, `le=1000.0`) is exact on the values involved;
* Python exceptions become `Except` / explicit error results; the four
  exception kinds are collapsed into the inductive `TMError`;
* the service's `dict` store is an insertion-ordered association list with
  unique keys, exactly the observable behaviour of a Python `dict`;
* `list.sort(key=..., reverse=True)` (Timsort: stable, ordered by key) is
  embedded as `List.insertionSort` with the corresponding relation, which is
  likewise stable and ordered by key;
* `list(set(...))` in tag normalization is embedded as `List.dedup`
  (first-occurrence deduplication): Python's set iteration order is
  unspecified, and every property below depends only on the underlying set
  of normalized tags and its size;
* pydantic's `validate_assignment=True` configuration means every
  `setattr` on a `Task` re-runs that field's validators and stores the
  validator's (possibly transformed) return value; this is embedded in
  `TaskService.assign`.
-/

namespace TaskManager

/-- Embeds `TaskPriority` from `models/task.py`. -/
inductive TaskPriority where
  | low
  | medium
  | high
  | critical
deriving DecidableEq

/-- Embeds `TaskStatus` from `models/task.py`. -/
inductive TaskStatus where
  | pending
  | in_progress
  | completed
  | cancelled
deriving DecidableEq

/-- The error kinds of the system: pydantic `ValidationError`, the
`ValueError` raised by entity transition methods (the spec's
`InvalidTransition`), `TaskNotFoundError` and `BusinessRuleError`. -/
inductive TMError where
  | validationError
  | invalidTransition
  | notFound
  | businessRuleError
deriving DecidableEq

/-- Python `str.lower()` (ASCII-faithful). -/
def pyLower (s : String) : String := ⟨s.data.map Char.toLower⟩

/-- Python `str.strip()`: remove leading and trailing whitespace. -/
def pyStrip (s : String) : String :=
  ⟨((s.data.dropWhile Char.isWhitespace).reverse.dropWhile Char.isWhitespace).reverse⟩

/-- The normalization performed by `Task.validate_tags`
(`models/task.py` lines 197-202):
`list(set(tag.strip().lower() for tag in v if tag.strip()))`. -/
def normalize_tags (v : List String) : List String :=
  ((v.filter fun tag => decide (pyStrip tag ≠ "")).map fun tag => pyLower (pyStrip tag)).dedup

/-- Embeds `Task.validate_tags` (`models/task.py` lines 176-208): normalize, then
reject with `ValidationError` when more than 10 normalized tags remain. -/
def validate_tags (v : List String) : Except TMError (List String) :=
  let normalized := normalize_tags v
  if 10 < normalized.length then Except.error TMError.validationError
  else Except.ok normalized

/-- The `Task` entity (`models/task.py`). -/
structure Task where
  id : Nat
  title : String
  description : Option String
  priority : TaskPriority
  status : TaskStatus
  created_at : Nat
  updated_at : Nat
  due_date : Option Nat
  assigned_to : Option Nat
  tags : List String
  estimated_hours : Option Rat
deriving DecidableEq

/-- Pydantic construction of a `Task` at clock value `now` with the
service-supplied fields (status defaults to `pending`, `created_at` and
`updated_at` to the current time): the `Field` constraints on `title`
(1-200 chars), `description` (at most 2000 chars), `estimated_hours`
(in [0, 1000]) and the `validate_due_date` / `validate_tags` validators
all must pass, else a `ValidationError` is raised and no task exists. -/
def mkTask (now : Nat) (id : Nat) (title : String) (description : Option String)
    (priority : TaskPriority) (due_date : Option Nat) (assigned_to : Option Nat)
    (tags : List String) (estimated_hours : Option Rat) : Except TMError Task :=
  if ¬(1 ≤ title.length ∧ title.length ≤ 200) then Except.error TMError.validationError
  else if description.any fun d => decide (2000 < d.length) then
    Except.error TMError.validationError
  else if due_date.any fun d => decide (d < now) then
    Except.error TMError.validationError
  else if estimated_hours.any fun h => decide (h < 0 ∨ 1000 < h) then
    Except.error TMError.validationError
  else
    match validate_tags tags with
    | Except.error e => Except.error e
    | Except.ok normalized =>
      Except.ok
        { id := id, title := title, description := description, priority := priority,
          status := TaskStatus.pending, created_at := now, updated_at := now,
          due_date := due_date, assigned_to := assigned_to, tags := normalized,
          estimated_hours := estimated_hours }

/-- Embeds `Task.mark_in_progress` (`models/task.py` lines 210-227). -/
def Task.mark_in_progress (now : Nat) (t : Task) : Except TMError Task :=
  if t.status ≠ TaskStatus.pending then Except.error TMError.invalidTransition
  else Except.ok { t with status := TaskStatus.in_progress, updated_at := now }

/-- Embeds `Task.mark_completed` (`models/task.py` lines 229-245). -/
def Task.mark_completed (now : Nat) (t : Task) : Except TMError Task :=
  if t.status = TaskStatus.completed ∨ t.status = TaskStatus.cancelled then
    Except.error TMError.invalidTransition
  else Except.ok { t with status := TaskStatus.completed, updated_at := now }

/-- Embeds `Task.cancel` (`models/task.py` lines 247-262).  Note the Python guard
`if reason:` is truthiness: the tag is appended only for a reason that is
both present and a non-empty string, and it is appended verbatim by
`self.tags.append(...)`, an in-place list mutation that does not go through
assignment validation. -/
def Task.cancel (now : Nat) (t : Task) (reason : Option String) : Except TMError Task :=
  if t.status = TaskStatus.completed then Except.error TMError.invalidTransition
  else
    Except.ok
      { t with
        status := TaskStatus.cancelled
        updated_at := now
        tags := t.tags ++
          (match reason with
           | some r => if r ≠ "" then ["cancelled:" ++ r] else []
           | none => []) }

/-- Embeds `Task.is_overdue` (`models/task.py` lines 264-278). -/
def Task.is_overdue (now : Nat) (t : Task) : Bool :=
  match t.due_date with
  | none => false
  | some d => decide (d < now) && decide (t.status ≠ TaskStatus.completed)

/-- The due-date expression of `create_urgent_task`
(`models/task.py` lines 328-330): current UTC time truncated to midnight
(`replace(hour=0, minute=0, second=0, microsecond=0)`) plus
`timedelta(hours=due_hours)`, in seconds.  (The module never imports
`timedelta`, so at runtime the source function in fact raises `NameError`;
this embedding gives the value of the expression as written.) -/
def urgent_due_date (now : Nat) (due_hours : Nat) : Nat :=
  (now / 86400) * 86400 + due_hours * 3600

/-- Embeds `create_urgent_task` (`models/task.py` lines 313-338) as written:
a `Task` with the given title and description, priority `critical`,
the due date of `urgent_due_date`, and tags `["urgent", "high-priority"]`. -/
def create_urgent_task (now : Nat) (id : Nat) (title description : String)
    (due_hours : Nat) : Except TMError Task :=
  mkTask now id title (some description) TaskPriority.critical
    (some (urgent_due_date now due_hours)) none ["urgent", "high-priority"] none

/-- The `TaskService` state (`services/task_service.py` lines 32-48):
the insertion-ordered id-keyed store `_tasks` and the `_stats` counters. -/
structure TaskService where
  tasks : List (Nat × Task)
  total_created : Nat
  total_completed : Nat
  total_cancelled : Nat
deriving DecidableEq

/-- Embeds `dict.get`: first (unique) binding of a key. -/
def lookup : List (Nat × Task) → Nat → Option Task
  | [], _ => none
  | (k, v) :: rest, key => if k = key then some v else lookup rest key

/-- Replace the value bound to a key, keeping its position (a Python dict
update of an existing key; the key being absent leaves the list unchanged). -/
def setTask : List (Nat × Task) → Nat → Task → List (Nat × Task)
  | [], _, _ => []
  | (k, v) :: rest, key, t =>
    if k = key then (k, t) :: rest else (k, v) :: setTask rest key t

/-- Embeds `self._tasks[task.id] = task`: replace in place when the key exists,
otherwise append (Python dict insertion order). -/
def storeInsert (m : List (Nat × Task)) (k : Nat) (t : Task) : List (Nat × Task) :=
  if (lookup m k).isSome then setTask m k t else m ++ [(k, t)]

/-- Embeds `TaskService.get_task` (`services/task_service.py` lines 114-131). -/
def TaskService.get_task (s : TaskService) (task_id : Nat) : Except TMError Task :=
  match lookup s.tasks task_id with
  | none => Except.error TMError.notFound
  | some t => Except.ok t

/-- Embeds `TaskService.create_task` (`services/task_service.py` lines 50-112). -/
def TaskService.create_task (now : Nat) (s : TaskService) (id : Nat) (title : String)
    (description : Option String) (priority : TaskPriority) (due_date : Option Nat)
    (assigned_to : Option Nat) (tags : List String) (estimated_hours : Option Rat) :
    Except TMError Task × TaskService :=
  if priority = TaskPriority.critical ∧ due_date = none then
    (Except.error TMError.businessRuleError, s)
  else if estimated_hours.any fun h => decide (40 < h) then
    (Except.error TMError.businessRuleError, s)
  else
    match mkTask now id title description priority due_date assigned_to tags estimated_hours with
    | Except.error e => (Except.error e, s)
    | Except.ok task =>
      (Except.ok task,
        { s with
          tasks := storeInsert s.tasks task.id task
          total_created := s.total_created + 1 })

/-- One supplied `field → value` entry of `update_task`'s `**updates`
mapping, restricted to the declared fields of the model. -/
inductive FieldUpdate where
  | title (v : String)
  | description (v : Option String)
  | priority (v : TaskPriority)
  | status (v : TaskStatus)
  | due_date (v : Option Nat)
  | assigned_to (v : Option Nat)
  | tags (v : List String)
  | estimated_hours (v : Option Rat)
deriving DecidableEq

/-- Embeds `setattr(task, field, value)` under pydantic's
`validate_assignment=True` (`models/task.py` lines 78-87): the field's
`Field` constraints and `@validator` functions re-run on assignment; a
failing validation raises `ValidationError` and leaves the task unchanged;
a passing one stores the validator's return value (tags are stored
re-normalized).  `priority`, `status` and `assigned_to` carry no
constraints beyond their (statically enforced) types. -/
def TaskService.assign (now : Nat) (t : Task) (u : FieldUpdate) : Except TMError Task :=
  match u with
  | FieldUpdate.title v =>
    if 1 ≤ v.length ∧ v.length ≤ 200 then Except.ok { t with title := v }
    else Except.error TMError.validationError
  | FieldUpdate.description v =>
    match v with
    | some d =>
      if d.length ≤ 2000 then Except.ok { t with description := some d }
      else Except.error TMError.validationError
    | none => Except.ok { t with description := none }
  | FieldUpdate.priority v => Except.ok { t with priority := v }
  | FieldUpdate.status v => Except.ok { t with status := v }
  | FieldUpdate.due_date v =>
    match v with
    | some d =>
      if d < now then Except.error TMError.validationError
      else Except.ok { t with due_date := some d }
    | none => Except.ok { t with due_date := none }
  | FieldUpdate.assigned_to v => Except.ok { t with assigned_to := v }
  | FieldUpdate.tags v =>
    match validate_tags v with
    | Except.error e => Except.error e
    | Except.ok normalized => Except.ok { t with tags := normalized }
  | FieldUpdate.estimated_hours v =>
    match v with
    | some h =>
      if 0 ≤ h ∧ h ≤ 1000 then Except.ok { t with estimated_hours := some h }
      else Except.error TMError.validationError
    | none => Except.ok { t with estimated_hours := none }

/-- Embeds `TaskService._validate_status_transition`
(`services/task_service.py` lines 284-317). -/
def TaskService.validate_status_transition (t : Task) (new_status : TaskStatus) :
    Except TMError Unit :=
  if t.status = TaskStatus.completed ∨ t.status = TaskStatus.cancelled then
    Except.error TMError.businessRuleError
  else if t.status = TaskStatus.in_progress ∧ new_status = TaskStatus.pending then
    Except.error TMError.businessRuleError
  else Except.ok ()

/-- One iteration of the `update_task` loop body
(`services/task_service.py` lines 155-159): the transition policy runs
first when the field is `status`, then the `setattr`. -/
def TaskService.apply_update (now : Nat) (t : Task) (u : FieldUpdate) :
    Except TMError Task :=
  match u with
  | FieldUpdate.status v =>
    match TaskService.validate_status_transition t v with
    | Except.error e => Except.error e
    | Except.ok _ => TaskService.assign now t (FieldUpdate.status v)
  | _ => TaskService.assign now t u

/-- The `update_task` loop.  The stored task is mutated in place entry by
entry, so when an entry raises, the mutations of the earlier entries
persist: the result is the task reached so far, paired with the error (if
any) that stopped the loop. -/
def TaskService.apply_updates (now : Nat) (t : Task) :
    List FieldUpdate → Task × Option TMError
  | [] => (t, none)
  | u :: us =>
    match TaskService.apply_update now t u with
    | Except.error e => (t, some e)
    | Except.ok t2 => TaskService.apply_updates now t2 us

/-- Embeds `TaskService.update_task` (`services/task_service.py` lines 133-164).
On success `updated_at` is refreshed after all fields are applied; on
failure the exception propagates immediately, with the mutations already
made to the stored task left in place. -/
def TaskService.update_task (now : Nat) (s : TaskService) (task_id : Nat)
    (updates : List FieldUpdate) : Except TMError Task × TaskService :=
  match lookup s.tasks task_id with
  | none => (Except.error TMError.notFound, s)
  | some t =>
    match TaskService.apply_updates now t updates with
    | (t2, some e) => (Except.error e, { s with tasks := setTask s.tasks task_id t2 })
    | (t2, none) =>
      let t3 := { t2 with updated_at := now }
      (Except.ok t3, { s with tasks := setTask s.tasks task_id t3 })

/-- Embeds `TaskService.complete_task` (`services/task_service.py` lines 166-187). -/
def TaskService.complete_task (now : Nat) (s : TaskService) (task_id : Nat) :
    Except TMError Task × TaskService :=
  match lookup s.tasks task_id with
  | none => (Except.error TMError.notFound, s)
  | some t =>
    match Task.mark_completed now t with
    | Except.error e => (Except.error e, s)
    | Except.ok t2 =>
      (Except.ok t2,
        { s with
          tasks := setTask s.tasks task_id t2
          total_completed := s.total_completed + 1 })

/-- Embeds `TaskService.cancel_task` (`services/task_service.py` lines 189-206). -/
def TaskService.cancel_task (now : Nat) (s : TaskService) (task_id : Nat)
    (reason : Option String) : Except TMError Task × TaskService :=
  match lookup s.tasks task_id with
  | none => (Except.error TMError.notFound, s)
  | some t =>
    match Task.cancel now t reason with
    | Except.error e => (Except.error e, s)
    | Except.ok t2 =>
      (Except.ok t2,
        { s with
          tasks := setTask s.tasks task_id t2
          total_cancelled := s.total_cancelled + 1 })

/-- Embeds `TaskService.list_tasks` (`services/task_service.py` lines 208-255):
sequentially apply each supplied filter, sort by `created_at` descending
(stable), slice `[offset, offset+limit)`. -/
def TaskService.list_tasks (now : Nat) (s : TaskService) (status : Option TaskStatus)
    (priority : Option TaskPriority) (assigned_to : Option Nat) (tag : Option String)
    (overdue_only : Bool) (limit : Nat) (offset : Nat) : List Task :=
  let tasks0 := s.tasks.map Prod.snd
  let tasks1 := match status with
    | some st => tasks0.filter fun t => decide (t.status = st)
    | none => tasks0
  let tasks2 := match priority with
    | some p => tasks1.filter fun t => decide (t.priority = p)
    | none => tasks1
  let tasks3 := match assigned_to with
    | some a => tasks2.filter fun t => decide (t.assigned_to = some a)
    | none => tasks2
  let tasks4 := match tag with
    | some tg => tasks3.filter fun t => decide (tg ∈ t.tags)
    | none => tasks3
  let tasks5 := if overdue_only then tasks4.filter fun t => Task.is_overdue now t else tasks4
  let sorted := List.insertionSort (fun a b => b.created_at ≤ a.created_at) tasks5
  (sorted.drop offset).take limit

/-- The conjunction of the supplied `list_tasks` filters, as the spec states
them (used to compare the sequential filtering of the source against a
single conjunctive pass). -/
def matches_filters (now : Nat) (status : Option TaskStatus) (priority : Option TaskPriority)
    (assigned_to : Option Nat) (tag : Option String) (overdue_only : Bool) (t : Task) : Bool :=
  (match status with | some st => decide (t.status = st) | none => true)
  && (match priority with | some p => decide (t.priority = p) | none => true)
  && (match assigned_to with | some a => decide (t.assigned_to = some a) | none => true)
  && (match tag with | some tg => decide (tg ∈ t.tags) | none => true)
  && (!overdue_only || Task.is_overdue now t)

/-! ## Store lemmas -/

theorem lookup_setTask_same (m : List (Nat × Task)) (k : Nat) (t : Task)
    (h : (lookup m k).isSome) : lookup (setTask m k t) k = some t := by
  induction m with
  | nil => simp [lookup] at h
  | cons hd tl ih =>
    obtain ⟨k', v⟩ := hd
    by_cases hk : k' = k
    · simp [setTask, lookup, hk]
    · simp only [setTask, lookup, if_neg hk]
      exact ih (by simpa [lookup, if_neg hk] using h)

theorem lookup_append_single (m : List (Nat × Task)) (k : Nat) (t : Task)
    (h : lookup m k = none) : lookup (m ++ [(k, t)]) k = some t := by
  induction m with
  | nil => simp [lookup]
  | cons hd tl ih =>
    obtain ⟨k', v⟩ := hd
    by_cases hk : k' = k
    · simp [lookup, hk] at h
    · simp only [List.cons_append, lookup, if_neg hk] at h ⊢
      exact ih h

theorem lookup_storeInsert (m : List (Nat × Task)) (k : Nat) (t : Task) :
    lookup (storeInsert m k t) k = some t := by
  unfold storeInsert
  by_cases h : (lookup m k).isSome
  · rw [if_pos h]
    exact lookup_setTask_same m k t h
  · rw [if_neg h]
    exact lookup_append_single m k t (by
      cases hl : lookup m k with
      | none => rfl
      | some v => rw [hl] at h; simp at h)

theorem setTask_lookup_self (m : List (Nat × Task)) (k : Nat) (t : Task)
    (h : lookup m k = some t) : setTask m k t = m := by
  induction m with
  | nil => rfl
  | cons hd tl ih =>
    obtain ⟨k', v⟩ := hd
    by_cases hk : k' = k
    · simp only [lookup, if_pos hk] at h
      cases h
      simp [setTask, hk]
    · simp only [lookup, if_neg hk] at h
      simp [setTask, hk, ih h]

/-! ## Concrete instances used by witnesses and counterexamples -/

/-- A baseline valid pending task. -/
def baseTask : Task :=
  { id := 1, title := "t", description := none, priority := TaskPriority.medium,
    status := TaskStatus.pending, created_at := 0, updated_at := 0, due_date := none,
    assigned_to := none, tags := [], estimated_hours := none }

/-- A service holding no task. -/
def emptyService : TaskService :=
  { tasks := [], total_created := 0, total_completed := 0, total_cancelled := 0 }

/-! ## C1 -/

/-- C1: for every stored task, a status change requested through
`update_task` is rejected with `BusinessRuleError` exactly when the current
status is `completed` or `cancelled`, or the current status is
`in_progress` and the requested status is `pending`; every other
(current, requested) pair — including requesting the current status again —
is accepted, and the stored task gets the requested status. -/
theorem update_task_status_transition_policy (now : Nat) (s : TaskService) (task_id : Nat)
    (t : Task) (new_status : TaskStatus) (h : lookup s.tasks task_id = some t) :
    (((t.status = TaskStatus.completed ∨ t.status = TaskStatus.cancelled) ∨
        (t.status = TaskStatus.in_progress ∧ new_status = TaskStatus.pending)) →
      (TaskService.update_task now s task_id [FieldUpdate.status new_status]).1 =
        Except.error TMError.businessRuleError) ∧
    (¬(t.status = TaskStatus.completed ∨ t.status = TaskStatus.cancelled) →
      ¬(t.status = TaskStatus.in_progress ∧ new_status = TaskStatus.pending) →
      (TaskService.update_task now s task_id [FieldUpdate.status new_status]).1 =
        Except.ok { t with status := new_status, updated_at := now }) := by
  constructor
  · intro hc
    simp only [TaskService.update_task, h, TaskService.apply_updates, TaskService.apply_update,
      TaskService.validate_status_transition]
    rcases hc with hc | hc
    · rw [if_pos hc]
    · have hne : ¬(t.status = TaskStatus.completed ∨ t.status = TaskStatus.cancelled) := by
        simp [hc.1]
      rw [if_neg hne, if_pos hc]
  · intro h1 h2
    simp only [TaskService.update_task, h, TaskService.apply_updates, TaskService.apply_update,
      TaskService.validate_status_transition, TaskService.assign]
    rw [if_neg h1, if_neg h2]

/-- A completed task stored under key 1, for the C1 witness. -/
def taskC1 : Task := { baseTask with status := TaskStatus.completed }

/-- The service of the C1 witness. -/
def serviceC1 : TaskService :=
  { tasks := [(1, taskC1)], total_created := 1, total_completed := 0, total_cancelled := 0 }

/-- C1 witness: updating the status of a stored completed task is rejected. -/
theorem update_task_status_transition_policy_witness :
    (TaskService.update_task 5 serviceC1 1 [FieldUpdate.status TaskStatus.pending]).1 =
      Except.error TMError.businessRuleError := by
  exact (update_task_status_transition_policy 5 serviceC1 1 taskC1 TaskStatus.pending
    (by decide)).1 (Or.inl (Or.inl (by decide)))

/-! ## C3 -/

/-- C3: `create_task` fails with `BusinessRuleError` when the priority is
`critical` and no due date is supplied, and when `estimated_hours` is
present and exceeds 40; otherwise, when entity validation passes, the
constructed task is returned, stored under its id, and `total_created`
grows by one.  The failing calls leave the service state unchanged. -/
theorem create_task_rules (now : Nat) (s : TaskService) (id : Nat) (title : String)
    (description : Option String) (priority : TaskPriority) (due_date : Option Nat)
    (assigned_to : Option Nat) (tags : List String) (estimated_hours : Option Rat) :
    (priority = TaskPriority.critical ∧ due_date = none →
      TaskService.create_task now s id title description priority due_date assigned_to
          tags estimated_hours =
        (Except.error TMError.businessRuleError, s)) ∧
    (∀ hrs : Rat, estimated_hours = some hrs → 40 < hrs →
      (TaskService.create_task now s id title description priority due_date assigned_to
          tags estimated_hours).1 = Except.error TMError.businessRuleError ∧
      (TaskService.create_task now s id title description priority due_date assigned_to
          tags estimated_hours).2 = s) ∧
    (∀ task : Task, ¬(priority = TaskPriority.critical ∧ due_date = none) →
      (∀ hrs : Rat, estimated_hours = some hrs → hrs ≤ 40) →
      mkTask now id title description priority due_date assigned_to tags estimated_hours =
        Except.ok task →
      (TaskService.create_task now s id title description priority due_date assigned_to
          tags estimated_hours).1 = Except.ok task ∧
      lookup (TaskService.create_task now s id title description priority due_date assigned_to
          tags estimated_hours).2.tasks task.id = some task ∧
      (TaskService.create_task now s id title description priority due_date assigned_to
          tags estimated_hours).2.total_created = s.total_created + 1) := by
  refine ⟨?_, ?_, ?_⟩
  · intro hc
    simp only [TaskService.create_task]
    rw [if_pos hc]
  · intro hrs he hgt
    by_cases hc : priority = TaskPriority.critical ∧ due_date = none
    · simp only [TaskService.create_task]
      rw [if_pos hc]
      exact ⟨rfl, rfl⟩
    · simp only [TaskService.create_task]
      rw [if_neg hc, if_pos (by simp [he, Option.any, hgt])]
      exact ⟨rfl, rfl⟩
  · intro task h1 h2 hmk
    have hany : ¬((estimated_hours.any fun h => decide (40 < h)) = true) := by
      cases he : estimated_hours with
      | none => simp [Option.any]
      | some hrs =>
        simp only [Option.any, decide_eq_true_eq]
        exact not_lt.mpr (h2 hrs he)
    simp only [TaskService.create_task]
    rw [if_neg h1, if_neg hany, hmk]
    exact ⟨rfl, lookup_storeInsert s.tasks task.id task, rfl⟩

/-- The task the C3 witness creates. -/
def taskC3 : Task := { baseTask with id := 3, title := "a" }

/-- C3 witness: a plain create succeeds, stores the task, and bumps the
counter. -/
theorem create_task_rules_witness :
    (TaskService.create_task 0 emptyService 3 "a" none TaskPriority.medium none none
        [] none).1 = Except.ok taskC3 ∧
    lookup (TaskService.create_task 0 emptyService 3 "a" none TaskPriority.medium none none
        [] none).2.tasks 3 = some taskC3 := by
  have h := (create_task_rules 0 emptyService 3 "a" none TaskPriority.medium none none
    [] none).2.2 taskC3 (by decide) (fun hrs hh => by simp at hh) (by rfl)
  exact ⟨h.1, h.2.1⟩

/-! ## C4 -/

/-- C4: tag normalization trims, lowercases, drops entries empty after
trimming, and deduplicates; an otherwise valid construction fails with
`ValidationError` exactly when more than 10 normalized tags remain, and on
success stores the normalized tags; `["Foo", " foo ", "BAR"]` normalizes to
the two-element set containing `"foo"` and `"bar"`. -/
theorem validate_tags_normalization (v : List String) :
    (validate_tags v = Except.ok (normalize_tags v) ↔ (normalize_tags v).length ≤ 10) ∧
    (validate_tags v = Except.error TMError.validationError ↔
      10 < (normalize_tags v).length) ∧
    (normalize_tags v).Nodup ∧
    (∀ x, x ∈ normalize_tags v ↔
      ∃ tag, tag ∈ v ∧ pyStrip tag ≠ "" ∧ x = pyLower (pyStrip tag)) ∧
    (∀ now id, mkTask now id "t" none TaskPriority.medium none none v none =
        Except.error TMError.validationError ↔ 10 < (normalize_tags v).length) ∧
    (∀ now id task, mkTask now id "t" none TaskPriority.medium none none v none =
        Except.ok task → task.tags = normalize_tags v) ∧
    normalize_tags ["Foo", " foo ", "BAR"] = ["foo", "bar"] := by
  refine ⟨?_, ?_, List.nodup_dedup _, ?_, ?_, ?_, by decide⟩
  · by_cases h10 : 10 < (normalize_tags v).length <;> simp [validate_tags, h10, Nat.not_lt]
    omega
  · by_cases h10 : 10 < (normalize_tags v).length <;> simp [validate_tags, h10]
  · intro x
    simp only [normalize_tags, List.mem_dedup, List.mem_map, List.mem_filter,
      decide_eq_true_eq]
    constructor
    · rintro ⟨a, ⟨ha, hne⟩, rfl⟩
      exact ⟨a, ha, hne, rfl⟩
    · rintro ⟨a, ha, hne, rfl⟩
      exact ⟨a, ⟨ha, hne⟩, rfl⟩
  · intro now id
    have htitle : (1 ≤ "t".length ∧ "t".length ≤ 200) := by decide
    simp only [mkTask, Option.any, if_neg (not_not_intro htitle)]
    by_cases h10 : 10 < (normalize_tags v).length <;> simp [validate_tags, h10]
  · intro now id task
    have htitle : (1 ≤ "t".length ∧ "t".length ≤ 200) := by decide
    simp only [mkTask, Option.any, if_neg (not_not_intro htitle)]
    by_cases h10 : 10 < (normalize_tags v).length <;> simp [validate_tags, h10]
    intro h
    cases h
    rfl

/-- Eleven distinct already-normalized tags. -/
def elevenTags : List String :=
  ["a", "b", "c", "d", "e", "f", "g", "h", "i", "j", "k"]

/-- C4 witness: eleven normalized tags are rejected by the tag validator. -/
theorem validate_tags_normalization_witness :
    validate_tags elevenTags = Except.error TMError.validationError := by
  exact (validate_tags_normalization elevenTags).2.1.mpr (by decide)

/-! ## C5 -/

/-- C5 counterexample: `cancel` with the supplied reason `""` succeeds on a
pending task but appends no `cancelled:` tag at all (the Python guard
`if reason:` is truthiness, so an empty-string reason is dropped), refuting
the claim that a given reason is always appended. -/
theorem cancel_empty_reason_cex :
    Task.cancel 7 baseTask (some "") =
      Except.ok { baseTask with status := TaskStatus.cancelled, updated_at := 7 } ∧
    ({ baseTask with status := TaskStatus.cancelled, updated_at := 7 } : Task).tags = [] := by
  exact ⟨rfl, rfl⟩

/-- C5 (amended): `cancel(reason?)` fails with `InvalidTransition` exactly
when the current status is `completed`; from any other status it succeeds,
sets the status to `cancelled`, refreshes `updated_at`, and appends the tag
`cancelled:<reason>` exactly when a non-empty reason is given (an absent or
empty-string reason appends nothing). -/
theorem cancel_behavior (now : Nat) (t : Task) (reason : Option String) :
    (t.status = TaskStatus.completed →
      Task.cancel now t reason = Except.error TMError.invalidTransition) ∧
    (t.status ≠ TaskStatus.completed → reason = none ∨ reason = some "" →
      Task.cancel now t reason =
        Except.ok { t with status := TaskStatus.cancelled, updated_at := now }) ∧
    (t.status ≠ TaskStatus.completed → ∀ r : String, reason = some r → r ≠ "" →
      Task.cancel now t reason =
        Except.ok { t with
          status := TaskStatus.cancelled
          updated_at := now
          tags := t.tags ++ ["cancelled:" ++ r] }) := by
  refine ⟨?_, ?_, ?_⟩
  · intro hc
    simp [Task.cancel, hc]
  · intro hc hr
    rcases hr with rfl | rfl <;> simp [Task.cancel, hc]
  · intro hc r hr hne
    subst hr
    simp [Task.cancel, hc, hne]

/-- C5 witness: cancelling a pending task with reason `"budget"` sets the
status to `cancelled` and appends the tag `cancelled:budget`. -/
theorem cancel_behavior_witness :
    Task.cancel 7 baseTask (some "budget") =
      Except.ok { baseTask with
        status := TaskStatus.cancelled
        updated_at := 7
        tags := ["cancelled:budget"] } := by
  exact (cancel_behavior 7 baseTask (some "budget")).2.2 (by decide) "budget" rfl (by decide)

/-! ## C8 -/

/-- The task that `create_urgent_task` would build when called at clock
value 36000 (10:00:00 UTC on day 0 of the embedded clock). -/
def taskC8 : Task :=
  { id := 1, title := "t", description := some "d", priority := TaskPriority.critical,
    status := TaskStatus.pending, created_at := 36000, updated_at := 36000,
    due_date := some 86400, assigned_to := none, tags := ["urgent", "high-priority"],
    estimated_hours := none }

/-- C8: the urgent factory does force priority `critical` and the tags
`urgent` and `high-priority`, but the due date it computes is midnight of
the creation day plus `due_hours` hours — not 24 hours after the moment of
creation: created at clock 36000, the due date is 86400, not 122400.
(On top of that, the source module never imports `timedelta`, so the real
function raises `NameError` before returning anything.) -/
theorem create_urgent_task_due_date_bug :
    create_urgent_task 36000 1 "t" "d" 24 = Except.ok taskC8 ∧
    taskC8.priority = TaskPriority.critical ∧
    taskC8.tags = ["urgent", "high-priority"] ∧
    taskC8.due_date = some (urgent_due_date 36000 24) ∧
    taskC8.due_date ≠ some (taskC8.created_at + 24 * 3600) := by
  exact ⟨rfl, rfl, rfl, rfl, by decide⟩

/-! ## C9 -/

/-- A valid pending task already carrying ten normalized tags. -/
def taskTen : Task :=
  { baseTask with
    tags := ["t0", "t1", "t2", "t3", "t4", "t5", "t6", "t7", "t8", "t9"] }

/-- The task `cancel` produces from `taskTen` with reason `" Budget "`. -/
def taskTenCancelled : Task :=
  { taskTen with
    status := TaskStatus.cancelled
    updated_at := 9
    tags := taskTen.tags ++ ["cancelled: Budget "] }

/-- C9: `cancel` with a non-empty reason appends `cancelled:<reason>`
verbatim, bypassing tag normalization: in general the appended entry is the
raw concatenation, and concretely a valid task holding ten normalized tags
ends up with eleven tags, one of which is untrimmed and not lowercase —
breaking the tag invariant every other operation maintains. -/
theorem cancel_appends_raw_tag (now : Nat) (t : Task) (r : String) :
    (r ≠ "" → t.status ≠ TaskStatus.completed →
      Task.cancel now t (some r) =
        Except.ok { t with
          status := TaskStatus.cancelled
          updated_at := now
          tags := t.tags ++ ["cancelled:" ++ r] }) ∧
    (Task.cancel 9 taskTen (some " Budget ") = Except.ok taskTenCancelled ∧
      normalize_tags taskTen.tags = taskTen.tags ∧
      taskTen.tags.length = 10 ∧
      taskTenCancelled.tags.length = 11 ∧
      "cancelled: Budget " ∈ taskTenCancelled.tags ∧
      pyLower (pyStrip "cancelled: Budget ") ≠ "cancelled: Budget ") := by
  constructor
  · intro hne hc
    simp [Task.cancel, hc, hne]
  · refine ⟨rfl, by decide, rfl, rfl, by decide, by decide⟩

/-- C9 witness: the generic part applied to a concrete pending task. -/
theorem cancel_appends_raw_tag_witness :
    Task.cancel 3 baseTask (some "x") =
      Except.ok { baseTask with
        status := TaskStatus.cancelled
        updated_at := 3
        tags := ["cancelled:x"] } := by
  exact (cancel_appends_raw_tag 3 baseTask "x").1 (by decide) (by decide)

/-! ## C10 -/

/-- C10: when the entity-level transition fails, `complete_task` and
`cancel_task` return the service state unchanged — in particular the
`total_completed` / `total_cancelled` counters are untouched; the counters
are incremented exactly on successful transitions. -/
theorem counters_count_only_successes (now : Nat) (s : TaskService) (task_id : Nat)
    (t : Task) (reason : Option String) (h : lookup s.tasks task_id = some t) :
    ((t.status = TaskStatus.completed ∨ t.status = TaskStatus.cancelled) →
      TaskService.complete_task now s task_id =
        (Except.error TMError.invalidTransition, s)) ∧
    (¬(t.status = TaskStatus.completed ∨ t.status = TaskStatus.cancelled) →
      (TaskService.complete_task now s task_id).2.total_completed =
        s.total_completed + 1) ∧
    (t.status = TaskStatus.completed →
      TaskService.cancel_task now s task_id reason =
        (Except.error TMError.invalidTransition, s)) ∧
    (t.status ≠ TaskStatus.completed →
      (TaskService.cancel_task now s task_id reason).2.total_cancelled =
        s.total_cancelled + 1) := by
  refine ⟨?_, ?_, ?_, ?_⟩
  · intro hc
    simp only [TaskService.complete_task, h, Task.mark_completed]
    rw [if_pos hc]
  · intro hc
    simp only [TaskService.complete_task, h, Task.mark_completed]
    rw [if_neg hc]
  · intro hc
    simp only [TaskService.cancel_task, h, Task.cancel]
    rw [if_pos hc]
  · intro hc
    simp only [TaskService.cancel_task, h, Task.cancel]
    rw [if_neg hc]

/-- An already-completed task stored under key 1, for the C10 witness. -/
def taskC10 : Task := { baseTask with status := TaskStatus.completed }

/-- The service of the C10 witness. -/
def serviceC10 : TaskService :=
  { tasks := [(1, taskC10)], total_created := 1, total_completed := 1, total_cancelled := 0 }

/-- C10 witness: completing an already-completed task fails and leaves the
state — counters included — unchanged. -/
theorem counters_count_only_successes_witness :
    TaskService.complete_task 4 serviceC10 1 =
      (Except.error TMError.invalidTransition, serviceC10) := by
  exact (counters_count_only_successes 4 serviceC10 1 taskC10 none (by decide)).1
    (Or.inl (by decide))

/-! ## C2 -/

/-- An in-progress task with no description, stored under key 2. -/
def taskC2 : Task := { baseTask with id := 2, status := TaskStatus.in_progress }

/-- The service of the C2 counterexample and amended theorem. -/
def serviceC2 : TaskService :=
  { tasks := [(2, taskC2)], total_created := 1, total_completed := 0, total_cancelled := 0 }

/-- The C2 update: a description assignment followed by a rejected status
change. -/
def updatesC2 : List FieldUpdate :=
  [FieldUpdate.description (some "x"), FieldUpdate.status TaskStatus.pending]

/-- C2 counterexample: an `update_task` call that supplies a description and
then a rejected status raises `BusinessRuleError`, yet the stored task keeps
the already-applied description — the store is not left unmodified. -/
theorem update_task_partial_write_cex :
    (TaskService.update_task 10 serviceC2 2 updatesC2).1 =
      Except.error TMError.businessRuleError ∧
    (TaskService.update_task 10 serviceC2 2 updatesC2).2 ≠ serviceC2 ∧
    lookup (TaskService.update_task 10 serviceC2 2 updatesC2).2.tasks 2 =
      some { taskC2 with description := some "x" } := by
  exact ⟨rfl, by decide, rfl⟩

/-- C2 (amended): a failed `create_task` leaves the store completely
unmodified, but a failed `update_task` applies the supplied fields in order
and leaves the fields processed before the failing one assigned on the
stored task — partial writes are observable, as the concrete failed update
shows. -/
theorem create_task_unchanged_update_task_partial_writes (now : Nat) (s : TaskService) (id : Nat)
    (title : String) (description : Option String) (priority : TaskPriority)
    (due_date : Option Nat) (assigned_to : Option Nat) (tags : List String)
    (estimated_hours : Option Rat) (e : TMError) :
    ((TaskService.create_task now s id title description priority due_date assigned_to
        tags estimated_hours).1 = Except.error e →
      (TaskService.create_task now s id title description priority due_date assigned_to
        tags estimated_hours).2 = s) ∧
    ((TaskService.update_task 10 serviceC2 2 updatesC2).1 =
        Except.error TMError.businessRuleError ∧
      lookup (TaskService.update_task 10 serviceC2 2 updatesC2).2.tasks 2 =
        some { taskC2 with description := some "x" }) := by
  refine ⟨?_, rfl, rfl⟩
  intro hfail
  by_cases h1 : priority = TaskPriority.critical ∧ due_date = none
  · simp only [TaskService.create_task]
    rw [if_pos h1]
  · by_cases h2 : (estimated_hours.any fun h => decide (40 < h)) = true
    · simp only [TaskService.create_task]
      rw [if_neg h1, if_pos h2]
    · cases hmk : mkTask now id title description priority due_date assigned_to tags
        estimated_hours with
      | error e2 =>
        simp only [TaskService.create_task]
        rw [if_neg h1, if_neg h2, hmk]
      | ok task =>
        exfalso
        simp only [TaskService.create_task] at hfail
        rw [if_neg h1, if_neg h2, hmk] at hfail
        exact Except.noConfusion hfail

/-- C2 witness: a create rejected by the critical-needs-due-date rule leaves
the empty service state unchanged. -/
theorem create_task_unchanged_update_task_partial_writes_witness :
    (TaskService.create_task 0 emptyService 1 "t" none TaskPriority.critical none none
      [] none).2 = emptyService := by
  exact (create_task_unchanged_update_task_partial_writes 0 emptyService 1 "t" none
    TaskPriority.critical none none [] none TMError.businessRuleError).1 rfl

/-! ## C6 -/

/-- A stored task with a valid title, for the C6 theorems. -/
def taskC6 : Task := { baseTask with id := 6, title := "ok" }

/-- The service of the C6 counterexample. -/
def serviceC6 : TaskService :=
  { tasks := [(6, taskC6)], total_created := 1, total_completed := 0, total_cancelled := 0 }

/-- C6 counterexample: an `update_task` call supplying an empty title is
rejected with `ValidationError` and not applied (the store is unchanged) —
refuting the claim that non-status fields are assigned without re-running
the per-field entity validators. -/
theorem update_task_revalidates_cex :
    (TaskService.update_task 9 serviceC6 6 [FieldUpdate.title ""]).1 =
      Except.error TMError.validationError ∧
    (TaskService.update_task 9 serviceC6 6 [FieldUpdate.title ""]).2 = serviceC6 := by
  exact ⟨rfl, by decide⟩

/-- C6 (amended): because the model is configured with
`validate_assignment=True`, every supplied non-status field is assigned
through pydantic assignment validation, which re-runs that field's entity
validators: an empty title, an out-of-range `estimated_hours`, or a past
`due_date` is rejected with `ValidationError` (the rejected assignment is
not applied), and a tags update is re-normalized and re-checked against the
10-tag cap. -/
theorem update_task_runs_assignment_validation (now : Nat) (s : TaskService)
    (task_id : Nat) (t : Task) (h : lookup s.tasks task_id = some t) :
    ((TaskService.update_task now s task_id [FieldUpdate.title ""]).1 =
        Except.error TMError.validationError ∧
      (TaskService.update_task now s task_id [FieldUpdate.title ""]).2 = s) ∧
    (∀ q : Rat, q < 0 ∨ 1000 < q →
      (TaskService.update_task now s task_id [FieldUpdate.estimated_hours (some q)]).1 =
        Except.error TMError.validationError) ∧
    (∀ d : Nat, d < now →
      (TaskService.update_task now s task_id [FieldUpdate.due_date (some d)]).1 =
        Except.error TMError.validationError) ∧
    (∀ v : List String,
      (TaskService.update_task now s task_id [FieldUpdate.tags v]).1 =
        if 10 < (normalize_tags v).length then Except.error TMError.validationError
        else Except.ok { t with tags := normalize_tags v, updated_at := now }) := by
  refine ⟨⟨?_, ?_⟩, ?_, ?_, ?_⟩
  · simp only [TaskService.update_task, h, TaskService.apply_updates, TaskService.apply_update,
      TaskService.assign]
    rw [if_neg (by decide)]
  · simp only [TaskService.update_task, h, TaskService.apply_updates, TaskService.apply_update,
      TaskService.assign]
    rw [if_neg (by decide)]
    simp only [setTask_lookup_self s.tasks task_id t h]
  · intro q hq
    have hnot : ¬(0 ≤ q ∧ q ≤ 1000) := by
      rcases hq with hq | hq
      · exact fun hc => absurd hc.1 (not_le.mpr hq)
      · exact fun hc => absurd hc.2 (not_le.mpr hq)
    simp only [TaskService.update_task, h, TaskService.apply_updates, TaskService.apply_update,
      TaskService.assign]
    rw [if_neg hnot]
  · intro d hd
    simp only [TaskService.update_task, h, TaskService.apply_updates, TaskService.apply_update,
      TaskService.assign]
    rw [if_pos hd]
  · intro v
    by_cases h10 : 10 < (normalize_tags v).length
    · simp only [TaskService.update_task, h, TaskService.apply_updates, TaskService.apply_update,
        TaskService.assign, validate_tags]
      rw [if_pos h10, if_pos h10]
    · simp only [TaskService.update_task, h, TaskService.apply_updates, TaskService.apply_update,
        TaskService.assign, validate_tags]
      rw [if_neg h10, if_neg h10]

/-- C6 witness: an update supplying `estimated_hours = 2000` is rejected by
the re-run range validator. -/
theorem update_task_runs_assignment_validation_witness :
    (TaskService.update_task 9 serviceC6 6 [FieldUpdate.estimated_hours (some 2000)]).1 =
      Except.error TMError.validationError := by
  exact (update_task_runs_assignment_validation 9 serviceC6 6 taskC6 (by decide)).2.1 2000
    (Or.inr (by norm_num))

/-! ## C7 -/

/-- The sequential filtering of `list_tasks` computes exactly the filter by
the conjunction of the supplied filters, sorted and sliced. -/
theorem list_tasks_eq (now : Nat) (s : TaskService) (status : Option TaskStatus)
    (priority : Option TaskPriority) (assigned_to : Option Nat) (tag : Option String)
    (overdue_only : Bool) (limit : Nat) (offset : Nat) :
    TaskService.list_tasks now s status priority assigned_to tag overdue_only limit offset =
      ((List.insertionSort (fun a b : Task => b.created_at ≤ a.created_at)
        ((s.tasks.map Prod.snd).filter
          (fun t => matches_filters now status priority assigned_to tag overdue_only t))).drop
            offset).take limit := by
  cases status <;> cases priority <;> cases assigned_to <;> cases tag <;>
    cases overdue_only <;>
    simp [TaskService.list_tasks, matches_filters, List.filter_filter, Bool.and_assoc,
      Bool.and_comm, Bool.and_left_comm]

/-- C7: for every store contents and every combination of the optional
filters, `list_tasks` returns a slice `[offset, offset+limit)` of a list
that is a permutation of exactly the stored tasks satisfying the
conjunction of the supplied filters and is sorted by `created_at`
descending; when `offset` is at least the filtered count the result is
empty (and the function is total, hence never fails for out-of-range
`offset` or `limit`). -/
theorem list_tasks_filter_sort_slice (now : Nat) (s : TaskService)
    (status : Option TaskStatus) (priority : Option TaskPriority)
    (assigned_to : Option Nat) (tag : Option String) (overdue_only : Bool)
    (limit : Nat) (offset : Nat) :
    (∃ l : List Task,
      l.Perm ((s.tasks.map Prod.snd).filter
        (matches_filters now status priority assigned_to tag overdue_only)) ∧
      List.Sorted (fun a b : Task => b.created_at ≤ a.created_at) l ∧
      TaskService.list_tasks now s status priority assigned_to tag overdue_only limit
        offset = (l.drop offset).take limit) ∧
    (((s.tasks.map Prod.snd).filter
        (matches_filters now status priority assigned_to tag overdue_only)).length ≤
        offset →
      TaskService.list_tasks now s status priority assigned_to tag overdue_only limit
        offset = []) := by
  haveI htot : IsTotal Task (fun a b : Task => b.created_at ≤ a.created_at) :=
    ⟨fun a b => Nat.le_total _ _⟩
  haveI htr : IsTrans Task (fun a b : Task => b.created_at ≤ a.created_at) :=
    ⟨fun a b c h1 h2 => Nat.le_trans h2 h1⟩
  have key := list_tasks_eq now s status priority assigned_to tag overdue_only limit offset
  constructor
  · exact ⟨List.insertionSort (fun a b : Task => b.created_at ≤ a.created_at)
      ((s.tasks.map Prod.snd).filter
        (matches_filters now status priority assigned_to tag overdue_only)),
      List.perm_insertionSort _ _, List.sorted_insertionSort _ _, key⟩
  · intro hoff
    rw [key, List.drop_eq_nil_of_le, List.take_nil]
    rw [List.length_insertionSort]
    exact hoff

/-- Three pending tasks with distinct creation times, stored in creation
order. -/
def serviceC7 : TaskService :=
  { tasks := [(1, { baseTask with id := 1, created_at := 1 }),
              (2, { baseTask with id := 2, created_at := 2 }),
              (3, { baseTask with id := 3, created_at := 3 })],
    total_created := 3, total_completed := 0, total_cancelled := 0 }

/-- C7 witness: with no filters supplied and an offset past the filtered
count, `list_tasks` returns the empty list rather than failing. -/
theorem list_tasks_filter_sort_slice_witness :
    TaskService.list_tasks 50 serviceC7 none none none none false 100 5 = [] := by
  exact (list_tasks_filter_sort_slice 50 serviceC7 none none none none false 100 5).2
    (by decide)

end TaskManager
